import Mathlib

/-!
Shallow embedding of src/src/inet/ssl.c from the Simba project: the TLS
session-management layer built on the mbedTLS engine.

Modelling conventions:
- The single static `struct module_t module` becomes the `ModuleT` record.
  The opaque mbedTLS objects inside it are abstracted to the facts the
  layer itself manipulates: flags for one-time module setup and seeding,
  the two allocation flags of the singleton conf/ssl slots, whether the
  engine session object is currently set up and not yet freed
  (`sslLive`), the parsed certificate chain and key stored in
  `module.cert` / `module.key`, and the three bindings the layer writes
  into `module.conf` (CA chain, own certificate and key pair, RNG).
- Certificates and keys are abstract tokens (`Nat`); a parsed chain is a
  `List Cert` whose head models `module.cert` itself and whose tail
  models the `module.cert.next` linked list.
- Caller structs `ssl_context_t` / `ssl_socket_t` become records whose
  pointer fields `conf_p` / `ssl_p` are Booleans: the only non-NULL
  value a pointer can take is the address of the corresponding member of
  the static module, so non-NULL-ness is all the pointer carries.
- Every mbedTLS call whose outcome the layer branches on is an oracle
  argument of the operation (seed success, config-defaults result,
  ssl-setup result, handshake result, parse results, own-cert result,
  record read/write result). The operation is a pure function of the
  module state, the caller struct and those oracle arguments.
- `ASSERTN(cond, -EINVAL)` returns -22 when the condition fails. The
  non-NULL checks on pointer arguments passed by the caller are modelled
  by taking the struct by value, except where a claim is about the NULL
  case itself (`ssl_socket_size`, and the struct-internal `conf_p` /
  `ssl_p` checks, which are modelled faithfully).
-/

/-- Abstract X.509 certificate token. -/
abbrev Cert := Nat

/-- Abstract private-key token. -/
abbrev Key := Nat

/-- The static `struct module_t module` of ssl.c, abstracted to the
facts the layer reads and writes. -/
structure ModuleT where
  /-- `module.initialized` (renamed to avoid clashing with common flag
  wording): set by the first `ssl_module_init` call. -/
  inited : Bool
  /-- mbedtls_entropy_init has run on `module.entropy`. -/
  entropyInit : Bool
  /-- mbedtls_ctr_drbg_init has run on `module.ctr_drbg`. -/
  drbgInit : Bool
  /-- mbedtls_ctr_drbg_seed succeeded on `module.ctr_drbg`. -/
  seeded : Bool
  /-- `module.ssl_allocated`. -/
  sslAllocated : Bool
  /-- `module.conf_allocated`. -/
  confAllocated : Bool
  /-- The engine session object `module.ssl` is set up
  (mbedtls_ssl_setup succeeded) and not yet freed by mbedtls_ssl_free. -/
  sslLive : Bool
  /-- The chain parsed into `module.cert`: head is `module.cert`
  itself, tail is the `next` linked list. -/
  cert : List Cert
  /-- `module.key`; `none` is the empty pk context after mbedtls_pk_init. -/
  key : Option Key
  /-- The CA-chain binding written into `module.conf` by
  mbedtls_ssl_conf_ca_chain; `none` until written. -/
  confCa : Option (List Cert)
  /-- The own-certificate and key binding written into `module.conf` by
  mbedtls_ssl_conf_own_cert; `none` until written. -/
  confOwn : Option (List Cert × Option Key)
  /-- The RNG binding written into `module.conf` by mbedtls_ssl_conf_rng. -/
  confRng : Bool
deriving Repr, DecidableEq

/-- `struct ssl_context_t`: the protocol field and the `conf_p` pointer,
which is either NULL (`false`) or `&module.conf` (`true`). -/
structure SslContext where
  protocol : Nat
  conf_p : Bool
deriving Repr, DecidableEq

/-- `struct ssl_socket_t`: the `ssl_p` pointer, either NULL (`false`) or
`&module.ssl` (`true`). -/
structure SslSocket where
  ssl_p : Bool
deriving Repr, DecidableEq

/-- The zero-initialized static module at program start. -/
def module_zeroed : ModuleT :=
  { inited := false, entropyInit := false, drbgInit := false, seeded := false
  , sslAllocated := false, confAllocated := false, sslLive := false
  , cert := [], key := none, confCa := none, confOwn := none, confRng := false }

/-- `alloc_ssl`: fails (NULL) when the session slot is occupied,
otherwise marks it occupied and returns `&module.ssl` (modelled as
`some ()`). -/
def alloc_ssl (m : ModuleT) : Option Unit × ModuleT :=
  if m.sslAllocated then (none, m)
  else (some (), { m with sslAllocated := true })

/-- `free_ssl`: clears the session-slot flag; the pointer argument is
ignored by the C code, so the model takes none. -/
def free_ssl (m : ModuleT) : ModuleT :=
  { m with sslAllocated := false }

/-- `alloc_conf`: fails (NULL) when the configuration slot is occupied,
otherwise marks it occupied and returns `&module.conf`. -/
def alloc_conf (m : ModuleT) : Option Unit × ModuleT :=
  if m.confAllocated then (none, m)
  else (some (), { m with confAllocated := true })

/-- `free_conf`: clears the configuration-slot flag; the pointer
argument is ignored by the C code. -/
def free_conf (m : ModuleT) : ModuleT :=
  { m with confAllocated := false }

/-- `ssl_module_init`: returns 0 immediately when already marked
initialized; otherwise sets the flag, runs entropy and ctr_drbg init,
and seeds the generator. `seedOk` is the oracle for the
mbedtls_ctr_drbg_seed outcome; on seed failure the function returns -1
with the flag already set. -/
def ssl_module_init (seedOk : Bool) (m : ModuleT) : Int × ModuleT :=
  if m.inited then (0, m)
  else
    let m1 := { m with inited := true, entropyInit := true, drbgInit := true }
    if seedOk then (0, { m1 with seeded := true })
    else (-1, m1)

/-- `ssl_context_init`: checks the module flag (ASSERTN, -EINVAL), sets
the protocol field, acquires the configuration slot via `alloc_conf`
(returning -1 when busy, with `conf_p` left NULL), resets the conf,
cookie, cert and key objects, applies `mbedtls_ssl_config_defaults`
(oracle `defaultsOk`; on failure returns -1 without releasing the slot),
and binds the RNG. -/
def ssl_context_init (m : ModuleT) (self : SslContext) (protocol : Nat)
    (defaultsOk : Bool) : Int × ModuleT × SslContext :=
  if ¬ m.inited then (-22, m, self)
  else
    let self1 := { self with protocol := protocol }
    match alloc_conf m with
    | (none, m1) => (-1, m1, { self1 with conf_p := false })
    | (some _, m1) =>
      let self2 := { self1 with conf_p := true }
      let m2 := { m1 with confCa := none, confOwn := none, confRng := false
                        , cert := [], key := none }
      if defaultsOk then (0, { m2 with confRng := true }, self2)
      else (-1, m2, self2)

/-- `ssl_context_deinit`: returns -EINVAL when `conf_p` is NULL
(ASSERTN), otherwise calls `free_conf` and returns 0. The `conf_p`
field of the caller struct is not cleared. -/
def ssl_context_deinit (m : ModuleT) (self : SslContext) : Int × ModuleT :=
  if ¬ self.conf_p then (-22, m)
  else (0, free_conf m)

/-- `ssl_context_load_cert_chain`: returns -EINVAL when `conf_p` is
NULL (ASSERTN); parses the certificate buffer (oracle `certRes`: the
list of certificates appended onto `module.cert`, or `none` for a parse
error, returning -1); when a key buffer is supplied (`keyPresent`)
parses it (oracle `keyRes`, -1 on failure); then binds the CA chain to
`module.cert.next` (the chain after the first certificate) and binds
`&module.cert` with `&module.key` as own certificate
(mbedtls_ssl_conf_own_cert outcome oracle `ownOk`, -1 on failure, with
the CA chain already written). -/
def ssl_context_load_cert_chain (m : ModuleT) (self : SslContext)
    (certRes : Option (List Cert)) (keyPresent : Bool) (keyRes : Option Key)
    (ownOk : Bool) : Int × ModuleT :=
  if ¬ self.conf_p then (-22, m)
  else
    match certRes with
    | none => (-1, m)
    | some certs =>
      let m1 := { m with cert := m.cert ++ certs }
      let bindConf := fun (m2 : ModuleT) =>
        let m3 := { m2 with confCa := some (m2.cert.drop 1) }
        if ownOk then (0, { m3 with confOwn := some (m3.cert, m3.key) })
        else ((-1 : Int), m3)
      if keyPresent then
        match keyRes with
        | none => (-1, m1)
        | some k => bindConf { m1 with key := some k }
      else bindConf m1

/-- `ssl_socket_open`: checks the module flag (ASSERTN, -EINVAL) and
the non-NULL context and socket arguments, acquires the session slot
via `alloc_ssl` (returning -1 when busy, with `ssl_p` left NULL), runs
mbedtls_ssl_init, mbedtls_ssl_setup on `&module.conf` (oracle
`setupRes`: on nonzero, `goto err` releases the slot and returns it),
binds the transport bridge, and runs the handshake (oracle
`handshakeRes`: on nonzero, frees the engine session, releases the slot
and returns it). The `ssl_p` field is not cleared on the error paths.
The context argument is only NULL-checked, never read. -/
def ssl_socket_open (m : ModuleT) (self : SslSocket) (_context : SslContext)
    (setupRes handshakeRes : Int) : Int × ModuleT × SslSocket :=
  if ¬ m.inited then (-22, m, self)
  else
    match alloc_ssl m with
    | (none, m1) => (-1, m1, { self with ssl_p := false })
    | (some _, m1) =>
      let self1 := { self with ssl_p := true }
      if setupRes ≠ 0 then (setupRes, free_ssl m1, self1)
      else
        let m2 := { m1 with sslLive := true }
        if handshakeRes ≠ 0 then
          (handshakeRes, free_ssl { m2 with sslLive := false }, self1)
        else (0, m2, self1)

/-- `ssl_socket_close`: returns -EINVAL when `ssl_p` is NULL (ASSERTN);
otherwise sends close-notify, frees the engine session and releases the
slot, returning 0. The `ssl_p` field of the caller struct is not
cleared. -/
def ssl_socket_close (m : ModuleT) (self : SslSocket) : Int × ModuleT :=
  if ¬ self.ssl_p then (-22, m)
  else (0, free_ssl { m with sslLive := false })

/-- `ssl_socket_write`: returns -EINVAL when `ssl_p` is NULL (ASSERTN);
otherwise returns the result of mbedtls_ssl_write on `module.ssl`
(oracle `engineRes`), whatever the state of that engine object. -/
def ssl_socket_write (_m : ModuleT) (self : SslSocket) (engineRes : Int) : Int :=
  if ¬ self.ssl_p then -22
  else engineRes

/-- `ssl_socket_read`: returns -EINVAL when `ssl_p` is NULL (ASSERTN);
otherwise returns the result of mbedtls_ssl_read on `module.ssl`
(oracle `engineRes`). -/
def ssl_socket_read (_m : ModuleT) (self : SslSocket) (engineRes : Int) : Int :=
  if ¬ self.ssl_p then -22
  else engineRes

/-- `ssl_socket_size`: -EINVAL on a NULL socket pointer (ASSERTN),
otherwise the constant 0. The argument is an `Option` so that the NULL
case of the single pointer check is expressible. -/
def ssl_socket_size (self : Option SslSocket) : Int :=
  match self with
  | none => -22
  | some _ => 0

/-- C4: after a first `ssl_module_init` call that returned success,
every later call returns success immediately and leaves the whole
module state (initialized flag, entropy, generator, seed) unchanged,
whatever seed outcome the engine would have produced. -/
theorem C4_module_init_idempotent (m : ModuleT) (seed1 seed2 : Bool)
    (hok : (ssl_module_init seed1 m).1 = 0) :
    ssl_module_init seed2 (ssl_module_init seed1 m).2
      = (0, (ssl_module_init seed1 m).2) := by
  unfold ssl_module_init at *
  by_cases h : m.inited
  · simp [h]
  · simp [h] at hok ⊢
    by_cases hs : seed1 = true
    · simp [hs]
    · simp [hs] at hok

/-- Witness for C4 at a concrete module state. -/
theorem C4_module_init_idempotent_witness :
    ssl_module_init false (ssl_module_init true module_zeroed).2
      = (0, (ssl_module_init true module_zeroed).2) :=
  C4_module_init_idempotent module_zeroed true false (by decide)

/-- C9: when the very first `ssl_module_init` call fails at seeding, it
returns -1 with the initialized flag already set, the generator never
seeded; every subsequent call then returns success immediately and never
seeds the generator (the module state, still unseeded, is unchanged). -/
theorem C9_seed_failure_masked (m : ModuleT)
    (h : m.inited = false) (hs : m.seeded = false) :
    (ssl_module_init false m).1 = -1 ∧
    (ssl_module_init false m).2.inited = true ∧
    (ssl_module_init false m).2.seeded = false ∧
    (∀ seedOk, ssl_module_init seedOk (ssl_module_init false m).2
        = (0, (ssl_module_init false m).2)) := by
  unfold ssl_module_init
  simp [h, hs]

/-- Witness for C9 at the zero-initialized module. -/
theorem C9_seed_failure_masked_witness :
    (ssl_module_init false module_zeroed).1 = -1 ∧
    (ssl_module_init false module_zeroed).2.inited = true ∧
    (ssl_module_init false module_zeroed).2.seeded = false ∧
    (∀ seedOk, ssl_module_init seedOk (ssl_module_init false module_zeroed).2
        = (0, (ssl_module_init false module_zeroed).2)) :=
  C9_seed_failure_masked module_zeroed (by decide) (by decide)

/-- C10: `ssl_socket_size` returns 0 for every non-NULL session
argument, in every session state, and its only check is the NULL check
on the session pointer, which yields -EINVAL. -/
theorem C10_socket_size_always_zero :
    (∀ self : SslSocket, ssl_socket_size (some self) = 0) ∧
    ssl_socket_size none = -22 := by
  constructor
  · intro self
    rfl
  · rfl

/-- C1: when `ssl_socket_open` allocates the session slot (the slot was
free at entry) and then fails, either at engine session setup or at the
handshake, the slot is free again when the error is returned, and an
immediately-following `ssl_socket_open` call can allocate it and
succeed. -/
theorem C1_open_failure_releases_slot (m : ModuleT) (s s2 : SslSocket)
    (ctx ctx2 : SslContext) (setupRes hsRes : Int)
    (hinit : m.inited = true) (hfree : m.sslAllocated = false)
    (hfail : (ssl_socket_open m s ctx setupRes hsRes).1 ≠ 0) :
    (ssl_socket_open m s ctx setupRes hsRes).2.1.sslAllocated = false ∧
    (ssl_socket_open (ssl_socket_open m s ctx setupRes hsRes).2.1
        s2 ctx2 0 0).1 = 0 := by
  unfold ssl_socket_open alloc_ssl free_ssl at *
  simp [hinit, hfree] at hfail ⊢
  by_cases hsetup : setupRes = 0
  · simp [hsetup] at hfail ⊢
    by_cases hh : hsRes = 0
    · simp [hh] at hfail
    · simp [hh]
  · simp [hsetup]

/-- Witness for C1: handshake failure right after module init. -/
theorem C1_open_failure_releases_slot_witness :
    (ssl_socket_open (ssl_module_init true module_zeroed).2 ⟨false⟩ ⟨0, true⟩
        0 (-42)).2.1.sslAllocated = false ∧
    (ssl_socket_open
        (ssl_socket_open (ssl_module_init true module_zeroed).2 ⟨false⟩ ⟨0, true⟩
            0 (-42)).2.1 ⟨false⟩ ⟨0, true⟩ 0 0).1 = 0 :=
  C1_open_failure_releases_slot (ssl_module_init true module_zeroed).2
    ⟨false⟩ ⟨false⟩ ⟨0, true⟩ ⟨0, true⟩ 0 (-42)
    (by decide) (by decide) (by decide)

/-- A module state in which both singleton slots are occupied, used by
concrete instantiations below. -/
def moduleBusy : ModuleT :=
  { module_zeroed with
    inited := true, confAllocated := true, sslAllocated := true }

/-- C3: with the module initialized, (a) `ssl_context_init` while the
configuration slot is occupied fails with -1 and leaves the module
state, in particular the occupied slot, untouched; (b) `ssl_socket_open`
while the session slot is occupied fails with -1 with the module state
untouched, independent of the context argument and of the configuration
state; (c) after `ssl_context_deinit` releases the configuration slot, a
new `ssl_context_init` succeeds; (d) after `ssl_socket_close` releases
the session slot, a new `ssl_socket_open` succeeds. -/
theorem C3_slot_exclusivity (m : ModuleT) (ctx : SslContext) (s : SslSocket)
    (p : Nat) (dok : Bool) (setupRes hsRes : Int)
    (hinit : m.inited = true) :
    (m.confAllocated = true →
      (ssl_context_init m ctx p dok).1 = -1 ∧
      (ssl_context_init m ctx p dok).2.1 = m) ∧
    (m.sslAllocated = true →
      (ssl_socket_open m s ctx setupRes hsRes).1 = -1 ∧
      (ssl_socket_open m s ctx setupRes hsRes).2.1 = m) ∧
    (ctx.conf_p = true →
      (ssl_context_init (ssl_context_deinit m ctx).2 ctx p true).1 = 0) ∧
    (s.ssl_p = true →
      (ssl_socket_open (ssl_socket_close m s).2 s ctx 0 0).1 = 0) := by
  refine ⟨fun hc => ?_, fun hs => ?_, fun hp => ?_, fun hq => ?_⟩
  · unfold ssl_context_init alloc_conf
    simp [hinit, hc]
  · unfold ssl_socket_open alloc_ssl
    simp [hinit, hs]
  · unfold ssl_context_deinit free_conf ssl_context_init alloc_conf
    simp [hinit, hp]
  · unfold ssl_socket_close free_ssl ssl_socket_open alloc_ssl
    simp [hinit, hq]

/-- Witness for C3 at a module state with both slots occupied. -/
theorem C3_slot_exclusivity_witness :
    ((ssl_context_init moduleBusy ⟨0, true⟩ 0 true).1 = -1 ∧
      (ssl_context_init moduleBusy ⟨0, true⟩ 0 true).2.1 = moduleBusy) ∧
    ((ssl_socket_open moduleBusy ⟨true⟩ ⟨0, true⟩ 0 0).1 = -1 ∧
      (ssl_socket_open moduleBusy ⟨true⟩ ⟨0, true⟩ 0 0).2.1 = moduleBusy) ∧
    (ssl_context_init (ssl_context_deinit moduleBusy ⟨0, true⟩).2
        ⟨0, true⟩ 0 true).1 = 0 ∧
    (ssl_socket_open (ssl_socket_close moduleBusy ⟨true⟩).2
        ⟨true⟩ ⟨0, true⟩ 0 0).1 = 0 := by
  have T := C3_slot_exclusivity moduleBusy ⟨0, true⟩ ⟨true⟩ 0 true 0 0
    (by decide)
  exact ⟨T.1 (by decide), T.2.1 (by decide), T.2.2.1 (by decide),
    T.2.2.2 (by decide)⟩

/-- The module state after a successful first `ssl_module_init`. -/
def mInit : ModuleT := (ssl_module_init true module_zeroed).2

/-- A successful `ssl_context_init` run from `mInit` on a zeroed
context struct. -/
def ctxTrace : Int × ModuleT × SslContext :=
  ssl_context_init mInit ⟨0, false⟩ 0 true

/-- Module state after the successful context init of `ctxTrace`. -/
def mCtx : ModuleT := ctxTrace.2.1

/-- Context struct after the successful context init of `ctxTrace`. -/
def ctxOpened : SslContext := ctxTrace.2.2

/-- A successful `ssl_socket_open` run from `mInit` on a zeroed socket
struct. -/
def openTrace : Int × ModuleT × SslSocket :=
  ssl_socket_open mInit ⟨false⟩ ⟨0, true⟩ 0 0

/-- Module state after the successful socket open of `openTrace`. -/
def mOpen : ModuleT := openTrace.2.1

/-- Socket struct after the successful socket open of `openTrace`. -/
def sockOpened : SslSocket := openTrace.2.2

/-- C5 counterexample: after module init, a successful context init and
a successful first deinit, a second `ssl_context_deinit` on the same
context returns 0 instead of the -EINVAL the claim requires, because
`free_conf` does not clear the `conf_p` field of the caller struct. -/
theorem C5_double_deinit_counterexample :
    ctxTrace.1 = 0 ∧
    (ssl_context_deinit mCtx ctxOpened).1 = 0 ∧
    (ssl_context_deinit (ssl_context_deinit mCtx ctxOpened).2 ctxOpened).1 = 0 ∧
    (ssl_context_deinit (ssl_context_deinit mCtx ctxOpened).2 ctxOpened).1
      ≠ -22 := by
  decide

/-- C5 amended: `ssl_context_deinit` fails with -EINVAL exactly when
the `conf_p` field of the context is NULL (a zeroed never-initialized
context, or one whose init failed at slot acquisition); when `conf_p`
is set it returns 0 and clears the configuration-slot flag
unconditionally, with no ownership check, and since `conf_p` is not
cleared a second deinit of the same context also returns 0. -/
theorem C5_deinit_guard (m : ModuleT) (ctx : SslContext) :
    (ctx.conf_p = false → ssl_context_deinit m ctx = (-22, m)) ∧
    (ctx.conf_p = true →
      (ssl_context_deinit m ctx).1 = 0 ∧
      (ssl_context_deinit m ctx).2 = free_conf m ∧
      (ssl_context_deinit (ssl_context_deinit m ctx).2 ctx).1 = 0) := by
  unfold ssl_context_deinit
  refine ⟨fun h => ?_, fun h => ?_⟩
  · simp [h]
  · simp [h]

/-- Witness for C5 amended: both guard outcomes at concrete states. -/
theorem C5_deinit_guard_witness :
    ssl_context_deinit module_zeroed ⟨0, false⟩ = (-22, module_zeroed) ∧
    (ssl_context_deinit mCtx ctxOpened).1 = 0 :=
  ⟨(C5_deinit_guard module_zeroed ⟨0, false⟩).1 (by decide),
   ((C5_deinit_guard mCtx ctxOpened).2 (by decide)).1⟩

/-- C6 counterexample: after a successful open and a successful close,
the session is no longer established and its slot is free, yet a second
`ssl_socket_close` returns 0 instead of the -EINVAL the claim requires,
because neither close nor `free_ssl` clears the `ssl_p` field. -/
theorem C6_double_close_counterexample :
    openTrace.1 = 0 ∧
    (ssl_socket_close mOpen sockOpened).1 = 0 ∧
    (ssl_socket_close mOpen sockOpened).2.sslLive = false ∧
    (ssl_socket_close mOpen sockOpened).2.sslAllocated = false ∧
    (ssl_socket_close (ssl_socket_close mOpen sockOpened).2 sockOpened).1 = 0 ∧
    (ssl_socket_close (ssl_socket_close mOpen sockOpened).2 sockOpened).1
      ≠ -22 := by
  decide

/-- C6 amended: `ssl_socket_close` fails with -EINVAL exactly when the
`ssl_p` field of the socket is NULL (a zeroed never-opened socket, or
one whose open failed at slot allocation); whenever `ssl_p` is set it
returns 0 and releases the slot unconditionally, regardless of the
session state and of whether the slot is allocated, so closing an
already-closed or handshake-failed session succeeds instead of
failing. -/
theorem C6_close_guard (m : ModuleT) (s : SslSocket) :
    (s.ssl_p = false → ssl_socket_close m s = (-22, m)) ∧
    (s.ssl_p = true →
      (ssl_socket_close m s).1 = 0 ∧
      (ssl_socket_close m s).2 = free_ssl { m with sslLive := false }) := by
  unfold ssl_socket_close
  refine ⟨fun h => ?_, fun h => ?_⟩
  · simp [h]
  · simp [h]

/-- Witness for C6 amended: both guard outcomes at concrete states. -/
theorem C6_close_guard_witness :
    ssl_socket_close module_zeroed ⟨false⟩ = (-22, module_zeroed) ∧
    (ssl_socket_close mOpen sockOpened).1 = 0 :=
  ⟨(C6_close_guard module_zeroed ⟨false⟩).1 (by decide),
   ((C6_close_guard mOpen sockOpened).2 (by decide)).1⟩

/-- C7 counterexample: after a successful open and a successful close,
`ssl_socket_write` and `ssl_socket_read` on that session pass the
pointer check (close does not clear `ssl_p`) and return the result of
the engine call on the freed session object instead of the -EINVAL the
claim requires. -/
theorem C7_write_after_close_counterexample :
    openTrace.1 = 0 ∧
    (ssl_socket_close mOpen sockOpened).1 = 0 ∧
    ssl_socket_write (ssl_socket_close mOpen sockOpened).2 sockOpened 37 = 37 ∧
    ssl_socket_write (ssl_socket_close mOpen sockOpened).2 sockOpened 37
      ≠ -22 ∧
    ssl_socket_read (ssl_socket_close mOpen sockOpened).2 sockOpened 5 = 5 ∧
    ssl_socket_read (ssl_socket_close mOpen sockOpened).2 sockOpened 5
      ≠ -22 := by
  decide

/-- C7 amended: `ssl_socket_write` and `ssl_socket_read` fail with
-EINVAL exactly when the `ssl_p` field of the socket is NULL; since a
successful `ssl_socket_close` does not clear `ssl_p`, a write or read
after close still passes the check and returns the engine result of the
record call on the freed (`sslLive = false`) session object. -/
theorem C7_write_read_guard (m : ModuleT) (s : SslSocket) (r : Int) :
    (s.ssl_p = false →
      ssl_socket_write m s r = -22 ∧ ssl_socket_read m s r = -22) ∧
    (s.ssl_p = true →
      ssl_socket_write m s r = r ∧ ssl_socket_read m s r = r) ∧
    (s.ssl_p = true →
      (ssl_socket_close m s).2.sslLive = false ∧
      ssl_socket_write (ssl_socket_close m s).2 s r = r ∧
      ssl_socket_read (ssl_socket_close m s).2 s r = r) := by
  unfold ssl_socket_write ssl_socket_read ssl_socket_close free_ssl
  refine ⟨fun h => ?_, fun h => ?_, fun h => ?_⟩
  · simp [h]
  · simp [h]
  · simp [h]

/-- Witness for C7 amended: both guard outcomes and the after-close
behavior at concrete states. -/
theorem C7_write_read_guard_witness :
    (ssl_socket_write module_zeroed ⟨false⟩ 9 = -22 ∧
      ssl_socket_read module_zeroed ⟨false⟩ 9 = -22) ∧
    (ssl_socket_write mOpen sockOpened 9 = 9 ∧
      ssl_socket_read mOpen sockOpened 9 = 9) :=
  ⟨(C7_write_read_guard module_zeroed ⟨false⟩ 9).1 (by decide),
   (C7_write_read_guard mOpen sockOpened 9).2.1 (by decide)⟩

/-- C2: concrete run showing the missing rollback. From the freshly
initialized module, an `ssl_context_init` call in which the
configuration-defaults step fails returns -1 but leaves the
configuration slot allocated, and a subsequent `ssl_context_init` then
fails with -1 at allocation instead of acquiring the slot. The claim
(and the spec, which requires clean rollback for every failed
`ContextInit`) is violated by the code at this input. -/
theorem C2_defaults_failure_leaks_slot :
    (ssl_context_init mInit ⟨0, false⟩ 0 false).1 = -1 ∧
    (ssl_context_init mInit ⟨0, false⟩ 0 false).2.1.confAllocated = true ∧
    (ssl_context_init (ssl_context_init mInit ⟨0, false⟩ 0 false).2.1
        ⟨0, false⟩ 0 true).1 = -1 := by
  decide

/-- C8: for a context owning the configuration slot and a freshly reset
certificate store, `ssl_context_load_cert_chain` (a) fails with -1 on a
malformed certificate buffer, leaving the whole module state, in
particular the CA-chain and own-certificate bindings, unchanged; (b)
when a key buffer is supplied and malformed, fails with -1 with the
configuration bindings unchanged; (c) on success with a supplied key,
stores the parsed chain and key and sets the CA-chain binding to
exactly the certificates after the first of the parsed chain and the
own-identity binding to the parsed chain (headed by the first
certificate) paired with the parsed key; (d) on success without a key
buffer it does the same using the pre-existing key object, consulting
the key oracle not at all. -/
theorem C8_load_cert_chain (m : ModuleT) (ctx : SslContext)
    (certRes : Option (List Cert)) (keyPresent : Bool) (keyRes : Option Key)
    (ownOk : Bool) (hc : ctx.conf_p = true) (hfresh : m.cert = []) :
    (certRes = none →
      ssl_context_load_cert_chain m ctx certRes keyPresent keyRes ownOk
        = (-1, m)) ∧
    (∀ certs, certRes = some certs → keyPresent = true → keyRes = none →
      ssl_context_load_cert_chain m ctx certRes keyPresent keyRes ownOk
        = (-1, { m with cert := certs })) ∧
    (∀ certs k, certRes = some certs → keyPresent = true →
        keyRes = some k → ownOk = true →
      ssl_context_load_cert_chain m ctx certRes keyPresent keyRes ownOk
        = (0, { m with
                  cert := certs, key := some k,
                  confCa := some (certs.drop 1),
                  confOwn := some (certs, some k) })) ∧
    (∀ certs, certRes = some certs → keyPresent = false → ownOk = true →
      ssl_context_load_cert_chain m ctx certRes keyPresent keyRes ownOk
        = (0, { m with
                  cert := certs, confCa := some (certs.drop 1),
                  confOwn := some (certs, m.key) })) := by
  unfold ssl_context_load_cert_chain
  refine ⟨fun h => ?_, fun certs h hk hr => ?_, fun certs k h hk hr ho => ?_,
    fun certs h hk ho => ?_⟩
  · simp [hc, h]
  · subst h hk hr
    simp [hc, hfresh]
  · subst h hk hr ho
    simp [hc, hfresh]
  · subst h hk ho
    simp [hc, hfresh]

/-- Witness for C8: a concrete three-certificate chain and key loaded
into the context produced by the successful context-init trace. -/
theorem C8_load_cert_chain_witness :
    ssl_context_load_cert_chain mCtx ctxOpened (some [10, 20, 30]) true
        (some 7) true
      = (0, { mCtx with
                cert := [10, 20, 30], key := some 7,
                confCa := some ([10, 20, 30].drop 1),
                confOwn := some ([10, 20, 30], some 7) }) :=
  (C8_load_cert_chain mCtx ctxOpened (some [10, 20, 30]) true (some 7) true
    (by decide) (by decide)).2.2.1 [10, 20, 30] 7 rfl rfl rfl rfl
